import Mathlib

/-!
# Deployment scaler (`main.go`)

A shallow embedding of `NewDeploymentScaler`, `GetElasticsearchResourceInfo` and
`UpdateDeploymentSpec`.

Conventions of the embedding:

* a Go pointer `*T` is an `Option T` (`none` is the nil pointer);
* dereferencing a nil pointer is the outcome `Outcome.panicked`;
* a Go `error` is its message text, and an `error` result is an `Option Error`
  (`none` is the nil error);
* an SDK call that returns a nil error returns a non-nil result;
* `int32` values are only stored, never computed with, so they are `Int`;
* the record types of the cloud SDK are declared outside this repository: the fields
  the program reads or writes are modelled by name, the remaining fields of a topology
  tier, of a plan and of the settings are the type parameters `T`, `P` and `S`, and the
  API client is the type parameter `A`;
* the remote calls (`api.NewAPI`, `deploymentapi.List`, `deploymentapi.GetElasticsearch`,
  `deploymentapi.Update`, `planutil.Wait`) are parameters; the last three act on a
  control-plane state `σ`, and every call made is appended to a trace.
-/

namespace PocValidateOnly

/-- A Go `error`, identified by its message. -/
abbrev Error := String

/-- How a Go call ends: it returns a value, or it aborts on a nil-pointer dereference. -/
inductive Outcome (α : Type) where
  | returned (a : α)
  | panicked
  deriving DecidableEq

/-! ## Data model -/

/-- The SDK record `models.TopologySize`. -/
structure TopologySize where
  Resource : Option String
  Value : Option Int
  deriving DecidableEq

/-- The SDK record `models.ElasticsearchClusterTopologyElement`: the identifier, the size
descriptor and the remaining fields. -/
structure ElasticsearchClusterTopologyElement (T : Type) where
  ID : String
  Size : Option TopologySize
  rest : T
  deriving DecidableEq

/-- The SDK record `models.ElasticsearchClusterPlan`: the ordered tier list (a slice of
pointers) and the remaining fields. -/
structure ElasticsearchClusterPlan (T P : Type) where
  ClusterTopology : List (Option (ElasticsearchClusterTopologyElement T))
  rest : P
  deriving DecidableEq

/-- The SDK record `models.ElasticsearchClusterPlanInfo` (field `Plan`). -/
structure ElasticsearchClusterPlanInfo (T P : Type) where
  Plan : Option (ElasticsearchClusterPlan T P)
  deriving DecidableEq

/-- The SDK record `models.ElasticsearchClusterPlansInfo` (field `Current`). -/
structure ElasticsearchClusterPlansInfo (T P : Type) where
  Current : Option (ElasticsearchClusterPlanInfo T P)
  deriving DecidableEq

/-- The SDK record `models.ElasticsearchClusterInfo` (fields `PlanInfo`, `Settings`). -/
structure ElasticsearchClusterInfo (T P S : Type) where
  PlanInfo : Option (ElasticsearchClusterPlansInfo T P)
  Settings : Option S
  deriving DecidableEq

/-- The SDK record `models.ElasticsearchResourceInfo` (fields `Info`, `RefID`, `Region`). -/
structure ElasticsearchResourceInfo (T P S : Type) where
  Info : Option (ElasticsearchClusterInfo T P S)
  RefID : Option String
  Region : Option String
  deriving DecidableEq

/-- The SDK record `models.ElasticsearchPayload`, with the four fields the program sets. -/
structure ElasticsearchPayload (T P S : Type) where
  Plan : Option (ElasticsearchClusterPlan T P)
  RefID : Option String
  Region : Option String
  Settings : Option S
  deriving DecidableEq

/-- The SDK record `models.DeploymentUpdateResources`: only the Elasticsearch slice is set. -/
structure DeploymentUpdateResources (T P S : Type) where
  Elasticsearch : List (Option (ElasticsearchPayload T P S))
  deriving DecidableEq

/-- The SDK record `models.DeploymentUpdateRequest`, with the two fields the program sets. -/
structure DeploymentUpdateRequest (T P S : Type) where
  PruneOrphans : Option Bool
  Resources : Option (DeploymentUpdateResources T P S)
  deriving DecidableEq

/-- The SDK record `models.DeploymentsListingData` (fields `ID`, `Name`). -/
structure DeploymentsListingData where
  ID : Option String
  Name : Option String
  deriving DecidableEq

/-- The SDK record `models.DeploymentsListResponse` (field `Deployments`). -/
structure DeploymentsListResponse where
  Deployments : List (Option DeploymentsListingData)
  deriving DecidableEq

/-- The handle `DeploymentScaler` of `main.go`. -/
structure DeploymentScaler (A : Type) where
  ecClient : A
  deploymentId : String
  deploymentName : String
  deriving DecidableEq

/-- The SDK record `deputil.QueryParams`, with the three flags the program sets. -/
structure QueryParams where
  ShowSettings : Bool
  ShowPlans : Bool
  ShowPlanDefaults : Bool
  deriving DecidableEq

/-- The SDK record `deploymentapi.GetParams`. -/
structure GetParams (A : Type) where
  API : A
  DeploymentID : String
  RefID : String
  QueryParams : QueryParams
  deriving DecidableEq

/-- The SDK record `deploymentapi.UpdateParams`. -/
structure UpdateParams (A T P S : Type) where
  DeploymentID : String
  API : A
  Request : DeploymentUpdateRequest T P S
  ValidateOnly : Bool
  deriving DecidableEq

/-- The SDK record `plan.TrackFrequencyConfig`. -/
structure TrackFrequencyConfig where
  PollFrequency : Nat
  MaxRetries : Nat
  deriving DecidableEq

/-- The SDK record `plan.TrackChangeParams`. -/
structure TrackChangeParams (A : Type) where
  API : A
  DeploymentID : String
  Config : TrackFrequencyConfig
  deriving DecidableEq

/-- A remote call made by `UpdateDeploymentSpec`, with its parameters. -/
inductive Call (A T P S : Type) where
  | GetElasticsearch (params : GetParams A)
  | Update (params : UpdateParams A T P S)
  | Wait (params : TrackChangeParams A)
  deriving DecidableEq

/-- The control plane as seen by `UpdateDeploymentSpec`: the three remote calls, each
answering from the current state `σ` and giving the next state. -/
structure ControlPlane (A T P S σ : Type) where
  GetElasticsearch : GetParams A → σ → Except Error (ElasticsearchResourceInfo T P S) × σ
  Update : UpdateParams A T P S → σ → Option Error × σ
  Wait : TrackChangeParams A → σ → Option Error × σ

/-- What one call of `UpdateDeploymentSpec` leaves behind: its outcome, the state of the
control plane, and the remote calls made, in order. -/
structure Run (A T P S σ : Type) where
  result : Outcome (Option Error)
  state : σ
  calls : List (Call A T P S)

/-! ## `NewDeploymentScaler` -/

/-- The scan of `NewDeploymentScaler` (lines 54-63): the first entry whose name equals
`deploymentName` gives the handle; `*deployment.Name` and `*deployment.ID` abort on a nil
pointer; the end of the list gives the not-found error. -/
def findDeployment {A : Type} (ecClient : A) (deploymentName : String) :
    List (Option DeploymentsListingData) → Outcome (Except Error (DeploymentScaler A))
  | [] => .returned (.error ("deployment not found: " ++ deploymentName))
  | none :: _ => .panicked
  | some deployment :: rest =>
    match deployment.Name with
    | none => .panicked
    | some name =>
      if name = deploymentName then
        match deployment.ID with
        | none => .panicked
        | some id =>
          .returned (.ok { ecClient := ecClient, deploymentId := id,
                           deploymentName := deploymentName })
      else findDeployment ecClient deploymentName rest

/-- The constructor `NewDeploymentScaler` (lines 38-64); `NewAPI` and `deploymentapiList`
are the two SDK calls it makes. -/
def NewDeploymentScaler {A : Type} (NewAPI : String → Except Error A)
    (deploymentapiList : A → Except Error DeploymentsListResponse)
    (ecApiKey deploymentName : String) : Outcome (Except Error (DeploymentScaler A)) :=
  match NewAPI ecApiKey with
  | .error err => .returned (.error err)
  | .ok ecClient =>
    match deploymentapiList ecClient with
    | .error err => .returned (.error err)
    | .ok res => findDeployment ecClient deploymentName res.Deployments

/-! ## `UpdateDeploymentSpec` -/

/-- The constant `topologyId` of line 91. -/
def topologyId : String := "hot_content"

/-- The constant `resource` of line 92. -/
def resource : String := "memory"

/-- The loop of lines 93-100 over the tier list. The result is the list after the loop
together with the number of times the assignment of line 95 ran; `none` is the abort on
`topology.ID` for a nil entry. -/
def mutateTopology {T : Type} (memorySize : Int) :
    List (Option (ElasticsearchClusterTopologyElement T)) →
      Option (List (Option (ElasticsearchClusterTopologyElement T)) × Nat)
  | [] => some ([], 0)
  | none :: _ => none
  | some topology :: rest =>
    match mutateTopology memorySize rest with
    | none => none
    | some (rest', n) =>
      if topology.ID = topologyId then
        some (some { topology with
                Size := some { Resource := some resource, Value := some memorySize } } :: rest',
              n + 1)
      else some (some topology :: rest', n)

/-- The plan `info.PlanInfo.Current.Plan` below a cluster info; `none` when one of the
three pointers on the way is nil. -/
def clusterPlan {T P S : Type} (info : ElasticsearchClusterInfo T P S) :
    Option (ElasticsearchClusterPlan T P) :=
  match info.PlanInfo with
  | none => none
  | some plansInfo =>
    match plansInfo.Current with
    | none => none
    | some current => current.Plan

/-- The plan `esResource.Info.PlanInfo.Current.Plan` of line 93; `none` when one of the
four pointers on the way is nil. -/
def currentPlan {T P S : Type} (esResource : ElasticsearchResourceInfo T P S) :
    Option (ElasticsearchClusterPlan T P) :=
  match esResource.Info with
  | none => none
  | some info => clusterPlan info

/-- The mutation step (lines 91-100) on the fetched plan: the plan as it stands after the
loop, or `none` when the step aborts. -/
def mutatePlan {T P : Type} (memorySize : Int) (plan : ElasticsearchClusterPlan T P) :
    Option (ElasticsearchClusterPlan T P) :=
  match mutateTopology memorySize plan.ClusterTopology with
  | none => none
  | some (topology, _) => some { plan with ClusterTopology := topology }

/-- Lines 91-114: the mutation step followed by the construction of the update request;
`none` when a nil pointer is dereferenced on the way. -/
def buildRequest {T P S : Type} (memorySize : Int)
    (esResource : ElasticsearchResourceInfo T P S) : Option (DeploymentUpdateRequest T P S) :=
  match esResource.Info with
  | none => none
  | some info =>
    match clusterPlan info with
    | none => none
    | some plan =>
      match mutatePlan memorySize plan with
      | none => none
      | some plan' =>
        some { PruneOrphans := some false
               Resources := some { Elasticsearch := [some
                 { Plan := some plan'
                   RefID := esResource.RefID
                   Region := esResource.Region
                   Settings := info.Settings }] } }

/-- The parameters `GetElasticsearchResourceInfo` passes to the SDK (lines 68-77). -/
def getParams {A : Type} (s : DeploymentScaler A) : GetParams A :=
  { API := s.ecClient
    DeploymentID := s.deploymentId
    RefID := "main-elasticsearch"
    QueryParams := { ShowSettings := true, ShowPlans := true, ShowPlanDefaults := true } }

/-- The parameters of the update call (lines 117-122). -/
def updateParams {A T P S : Type} (s : DeploymentScaler A) (r : DeploymentUpdateRequest T P S)
    (validateOnly : Bool) : UpdateParams A T P S :=
  { DeploymentID := s.deploymentId, API := s.ecClient, Request := r,
    ValidateOnly := validateOnly }

/-- The parameters of the tracking call (lines 128-135). -/
def trackParams {A : Type} (s : DeploymentScaler A) : TrackChangeParams A :=
  { API := s.ecClient, DeploymentID := s.deploymentId,
    Config := { PollFrequency := 10, MaxRetries := 10 } }

/-- The method `GetElasticsearchResourceInfo` (lines 67-79). -/
def GetElasticsearchResourceInfo {A T P S σ : Type} (cp : ControlPlane A T P S σ)
    (s : DeploymentScaler A) (w : σ) : Except Error (ElasticsearchResourceInfo T P S) × σ :=
  cp.GetElasticsearch (getParams s) w

/-- The method `UpdateDeploymentSpec` (lines 83-139), run from the control-plane state `w`. -/
def UpdateDeploymentSpec {A T P S σ : Type} (cp : ControlPlane A T P S σ)
    (s : DeploymentScaler A) (memorySize : Int) (validateOnly : Bool) (w : σ) :
    Run A T P S σ :=
  let fetched := GetElasticsearchResourceInfo cp s w
  match fetched.1 with
  | .error err =>
    { result := .returned (some err), state := fetched.2,
      calls := [.GetElasticsearch (getParams s)] }
  | .ok esResource =>
    match buildRequest memorySize esResource with
    | none =>
      { result := .panicked, state := fetched.2, calls := [.GetElasticsearch (getParams s)] }
    | some r =>
      let updated := cp.Update (updateParams s r validateOnly) fetched.2
      match updated.1 with
      | some err =>
        { result := .returned (some err), state := updated.2,
          calls := [.GetElasticsearch (getParams s), .Update (updateParams s r validateOnly)] }
      | none =>
        let waited := cp.Wait (trackParams s) updated.2
        { result := .returned waited.1, state := waited.2,
          calls := [.GetElasticsearch (getParams s), .Update (updateParams s r validateOnly),
                    .Wait (trackParams s)] }

/-! ## Reference notions used in the statements -/

/-- A non-nil tier after one pass of the loop body (lines 94-99). -/
def patchTier {T : Type} (memorySize : Int) (t : ElasticsearchClusterTopologyElement T) :
    ElasticsearchClusterTopologyElement T :=
  if t.ID = "hot_content" then
    { t with Size := some { Resource := some "memory", Value := some memorySize } }
  else t

/-- The number of entries of a tier list whose identifier is `"hot_content"`. -/
def hotCount {T : Type} (tiers : List (Option (ElasticsearchClusterTopologyElement T))) : Nat :=
  tiers.countP fun e =>
    match e with
    | some t => decide (t.ID = "hot_content")
    | none => false

/-- Whether an entry of the deployment list is present and carries the name `deploymentName`. -/
def hasName (deploymentName : String) (e : Option DeploymentsListingData) : Bool :=
  match e with
  | some d => decide (d.Name = some deploymentName)
  | none => false

/-! ## A test double of the control plane -/

/-- The state of the test double: the update requests that were applied, oldest first. -/
structure DoubleState (T P S : Type) where
  applied : List (DeploymentUpdateRequest T P S)
  deriving DecidableEq

/-- A test double of the external control plane, tracking applied changes. It answers
every fetch with `fetched`, validates an update with `validate`, records an applied change
only for a valid update submitted with validate-only false, and answers every tracking
call with `tracked`. -/
def testDouble {A T P S : Type} (fetched : Except Error (ElasticsearchResourceInfo T P S))
    (validate : DeploymentUpdateRequest T P S → Option Error) (tracked : Option Error) :
    ControlPlane A T P S (DoubleState T P S) where
  GetElasticsearch := fun _ w => (fetched, w)
  Update := fun params w =>
    match validate params.Request with
    | some err => (some err, w)
    | none =>
      if params.ValidateOnly then (none, w)
      else (none, { applied := w.applied ++ [params.Request] })
  Wait := fun _ w => (tracked, w)

/-! ## Example data -/

/-- A tier with identifier `id` and memory size `size`. -/
def exampleTier (id : String) (size : Int) : ElasticsearchClusterTopologyElement String :=
  { ID := id, Size := some { Resource := some "memory", Value := some size },
    rest := "zone_count=2" }

/-- A plan with the given tier list. -/
def examplePlan (tiers : List (Option (ElasticsearchClusterTopologyElement String))) :
    ElasticsearchClusterPlan String String :=
  { ClusterTopology := tiers, rest := "deployment_template=default" }

/-- A resource info, all of whose pointers are set, around the given tier list. -/
def exampleInfo (tiers : List (Option (ElasticsearchClusterTopologyElement String))) :
    ElasticsearchResourceInfo String String String :=
  { Info := some { PlanInfo := some { Current := some { Plan := some (examplePlan tiers) } },
                   Settings := some "snapshot=enabled" },
    RefID := some "main-elasticsearch",
    Region := some "region-1" }

/-- The tier list `[hot_content(2048), warm_content(4096)]`. -/
def hotWarm : List (Option (ElasticsearchClusterTopologyElement String)) :=
  [some (exampleTier "hot_content" 2048), some (exampleTier "warm_content" 4096)]

/-- The tier list `[warm_content(4096)]`. -/
def warmOnly : List (Option (ElasticsearchClusterTopologyElement String)) :=
  [some (exampleTier "warm_content" 4096)]

/-- A tier list with two entries named `hot_content`. -/
def hotTwice : List (Option (ElasticsearchClusterTopologyElement String)) :=
  [some (exampleTier "hot_content" 2048), some (exampleTier "hot_content" 1024)]

/-- A resource info whose cluster info is absent. -/
def infoAbsent : ElasticsearchResourceInfo String String String :=
  { Info := none, RefID := some "main-elasticsearch", Region := some "region-1" }

/-- A handle on the deployment `"d-1"`. -/
def exampleScaler : DeploymentScaler Unit :=
  { ecClient := (), deploymentId := "d-1", deploymentName := "prod" }

/-- A deployment list entry with the given ID and name. -/
def listing (id name : String) : Option DeploymentsListingData :=
  some { ID := some id, Name := some name }

/-- A client constructor that always succeeds. -/
def exampleNewAPI : String → Except Error Unit := fun _ => .ok ()

/-- A list call that always answers with the given entries. -/
def exampleList (entries : List (Option DeploymentsListingData)) :
    Unit → Except Error DeploymentsListResponse :=
  fun _ => .ok { Deployments := entries }

/-- The empty state of the test double. -/
def emptyDouble : DoubleState String String String := { applied := [] }

/-! ## The mutation step -/

section Mutation

variable {T P S : Type}

theorem mutateTopology_of_present (memorySize : Int)
    (tiers : List (Option (ElasticsearchClusterTopologyElement T)))
    (h : ∀ e ∈ tiers, e ≠ none) :
    mutateTopology memorySize tiers
      = some (tiers.map (Option.map (patchTier memorySize)), hotCount tiers) := by
  induction tiers with
  | nil => rfl
  | cons e rest ih =>
    have hrest : ∀ x ∈ rest, x ≠ none := fun x hx => h x (List.mem_cons_of_mem _ hx)
    cases e with
    | none => exact absurd rfl (h none (List.mem_cons_self _ _))
    | some t =>
      simp only [mutateTopology, ih hrest, topologyId, resource]
      by_cases hid : t.ID = "hot_content"
      · simp [hid, patchTier, hotCount, List.countP_cons]
      · simp [hid, patchTier, hotCount, List.countP_cons]

theorem present_of_mutateTopology (memorySize : Int)
    (tiers : List (Option (ElasticsearchClusterTopologyElement T)))
    (h : mutateTopology memorySize tiers ≠ none) : ∀ e ∈ tiers, e ≠ none := by
  induction tiers with
  | nil => simp
  | cons e rest ih =>
    cases e with
    | none => simp [mutateTopology] at h
    | some t =>
      have hrest : mutateTopology memorySize rest ≠ none := by
        intro hn
        simp [mutateTopology, hn] at h
      intro x hx
      rcases List.mem_cons.mp hx with rfl | hx
      · simp
      · exact ih hrest x hx

theorem mutatePlan_of_present (memorySize : Int) (plan : ElasticsearchClusterPlan T P)
    (h : ∀ e ∈ plan.ClusterTopology, e ≠ none) :
    mutatePlan memorySize plan
      = some { plan with
          ClusterTopology := plan.ClusterTopology.map (Option.map (patchTier memorySize)) } := by
  simp [mutatePlan, mutateTopology_of_present memorySize _ h]

theorem present_of_mutatePlan (memorySize : Int) (plan plan' : ElasticsearchClusterPlan T P)
    (h : mutatePlan memorySize plan = some plan') : ∀ e ∈ plan.ClusterTopology, e ≠ none := by
  apply present_of_mutateTopology memorySize
  intro hn
  simp [mutatePlan, hn] at h

theorem mutatePlan_eq (memorySize : Int) (plan plan' : ElasticsearchClusterPlan T P)
    (h : mutatePlan memorySize plan = some plan') :
    plan' = { plan with
      ClusterTopology := plan.ClusterTopology.map (Option.map (patchTier memorySize)) } := by
  have hp := mutatePlan_of_present memorySize plan (present_of_mutatePlan memorySize plan plan' h)
  rw [hp] at h
  exact (Option.some.inj h).symm

theorem patched_getElem? (memorySize : Int)
    (tiers : List (Option (ElasticsearchClusterTopologyElement T))) (i : Nat)
    (t : ElasticsearchClusterTopologyElement T) (h : tiers[i]? = some (some t)) :
    (tiers.map (Option.map (patchTier memorySize)))[i]? = some (some (patchTier memorySize t)) := by
  simp [List.getElem?_map, h]

theorem map_patch_of_no_hot (memorySize : Int)
    (tiers : List (Option (ElasticsearchClusterTopologyElement T)))
    (h : ∀ t, some t ∈ tiers → t.ID ≠ "hot_content") :
    tiers.map (Option.map (patchTier memorySize)) = tiers := by
  induction tiers with
  | nil => rfl
  | cons e rest ih =>
    have hrest : ∀ t, some t ∈ rest → t.ID ≠ "hot_content" :=
      fun t ht => h t (List.mem_cons_of_mem _ ht)
    cases e with
    | none => simp [ih hrest]
    | some t =>
      have hid : t.ID ≠ "hot_content" := h t (List.mem_cons_self _ _)
      simp [ih hrest, patchTier, hid]

theorem buildRequest_eq (memorySize : Int) (es : ElasticsearchResourceInfo T P S)
    (r : DeploymentUpdateRequest T P S) (h : buildRequest memorySize es = some r) :
    ∃ info plan plan', es.Info = some info ∧ clusterPlan info = some plan ∧
      currentPlan es = some plan ∧ mutatePlan memorySize plan = some plan' ∧
      r = { PruneOrphans := some false
            Resources := some { Elasticsearch := [some
              { Plan := some plan', RefID := es.RefID, Region := es.Region,
                Settings := info.Settings }] } } := by
  unfold buildRequest at h
  cases hinfo : es.Info with
  | none => simp [hinfo] at h
  | some info =>
    cases hplan : clusterPlan info with
    | none => simp [hinfo, hplan] at h
    | some plan =>
      cases hmut : mutatePlan memorySize plan with
      | none => simp [hinfo, hplan, hmut] at h
      | some plan' =>
        simp only [hinfo, hplan, hmut] at h
        exact ⟨info, plan, plan', rfl, hplan, by simp [currentPlan, hinfo, hplan], hmut,
          (Option.some.inj h).symm⟩

theorem buildRequest_of_present (memorySize : Int) (es : ElasticsearchResourceInfo T P S)
    (plan : ElasticsearchClusterPlan T P) (hplan : currentPlan es = some plan)
    (hpresent : ∀ e ∈ plan.ClusterTopology, e ≠ none) :
    ∃ r, buildRequest memorySize es = some r := by
  unfold currentPlan at hplan
  cases hinfo : es.Info with
  | none => simp [hinfo] at hplan
  | some info =>
    simp only [hinfo] at hplan
    simp [buildRequest, hinfo, hplan, mutatePlan_of_present memorySize plan hpresent]

end Mutation

/-! ## The scan of the deployment list -/

section Lookup

variable {A : Type}

theorem findDeployment_of_match (ecClient : A) (deploymentName : String)
    (entries : List (Option DeploymentsListingData))
    (hfields : ∀ e ∈ entries, ∃ d id name, e = some d ∧ d.ID = some id ∧ d.Name = some name)
    (hmatch : ∃ d, some d ∈ entries ∧ d.Name = some deploymentName) :
    ∃ d id, entries.find? (hasName deploymentName) = some (some d) ∧ d.ID = some id ∧
      findDeployment ecClient deploymentName entries
        = .returned (.ok { ecClient := ecClient, deploymentId := id,
                           deploymentName := deploymentName }) := by
  induction entries with
  | nil =>
    obtain ⟨d, hd, _⟩ := hmatch
    simp at hd
  | cons e rest ih =>
    obtain ⟨d, id, name, rfl, hid, hname⟩ := hfields e (List.mem_cons_self _ _)
    by_cases heq : name = deploymentName
    · refine ⟨d, id, ?_, hid, ?_⟩
      · simp [List.find?, hasName, hname, heq]
      · simp [findDeployment, hname, hid, heq]
    · have hrest : ∃ d', some d' ∈ rest ∧ d'.Name = some deploymentName := by
        obtain ⟨d', hd', hn'⟩ := hmatch
        rcases List.mem_cons.mp hd' with h | h
        · have : d' = d := Option.some.inj h
          subst this
          rw [hname] at hn'
          exact absurd (Option.some.inj hn') heq
        · exact ⟨d', h, hn'⟩
      obtain ⟨d', id', hfind, hid', hres⟩ :=
        ih (fun x hx => hfields x (List.mem_cons_of_mem _ hx)) hrest
      refine ⟨d', id', ?_, hid', ?_⟩
      · simp [List.find?, hasName, hname, heq]
        exact hfind
      · simp [findDeployment, hname, heq]
        exact hres

theorem findDeployment_of_no_match (ecClient : A) (deploymentName : String)
    (entries : List (Option DeploymentsListingData))
    (hnames : ∀ e ∈ entries, ∃ d name, e = some d ∧ d.Name = some name)
    (hno : ∀ d, some d ∈ entries → d.Name ≠ some deploymentName) :
    findDeployment ecClient deploymentName entries
      = .returned (.error ("deployment not found: " ++ deploymentName)) := by
  induction entries with
  | nil => rfl
  | cons e rest ih =>
    obtain ⟨d, name, rfl, hname⟩ := hnames e (List.mem_cons_self _ _)
    have hne : name ≠ deploymentName := by
      intro h
      exact hno d (List.mem_cons_self _ _) (by rw [hname, h])
    simp only [findDeployment, hname, hne, if_false]
    exact ih (fun x hx => hnames x (List.mem_cons_of_mem _ hx))
      (fun d' hd' => hno d' (List.mem_cons_of_mem _ hd'))

theorem findDeployment_error_no_match (ecClient : A) (deploymentName : String)
    (entries : List (Option DeploymentsListingData)) (err : Error)
    (h : findDeployment ecClient deploymentName entries = .returned (.error err)) :
    ∀ d, some d ∈ entries → d.Name ≠ some deploymentName := by
  induction entries with
  | nil => simp
  | cons e rest ih =>
    cases e with
    | none => simp [findDeployment] at h
    | some d0 =>
      cases hname : d0.Name with
      | none => simp [findDeployment, hname] at h
      | some name =>
        by_cases heq : name = deploymentName
        · cases hid : d0.ID with
          | none => simp [findDeployment, hname, heq, hid] at h
          | some id => simp [findDeployment, hname, heq, hid] at h
        · simp only [findDeployment, hname, heq, if_false] at h
          intro d hd
          rcases List.mem_cons.mp hd with hd | hd
          · have : d = d0 := Option.some.inj hd
            subst this
            rw [hname]
            intro hc
            exact heq (Option.some.inj hc)
          · exact ih h d hd

end Lookup

/-! ## The run of `UpdateDeploymentSpec` -/

section Runs

variable {A T P S σ : Type}

theorem run_of_fetch_error (cp : ControlPlane A T P S σ) (s : DeploymentScaler A)
    (memorySize : Int) (validateOnly : Bool) (w : σ) (err : Error)
    (hfetch : (GetElasticsearchResourceInfo cp s w).1 = .error err) :
    UpdateDeploymentSpec cp s memorySize validateOnly w
      = { result := .returned (some err), state := (GetElasticsearchResourceInfo cp s w).2,
          calls := [.GetElasticsearch (getParams s)] } := by
  simp only [UpdateDeploymentSpec, hfetch]

theorem run_of_abort (cp : ControlPlane A T P S σ) (s : DeploymentScaler A)
    (memorySize : Int) (validateOnly : Bool) (w : σ) (es : ElasticsearchResourceInfo T P S)
    (hfetch : (GetElasticsearchResourceInfo cp s w).1 = .ok es)
    (hbuild : buildRequest memorySize es = none) :
    UpdateDeploymentSpec cp s memorySize validateOnly w
      = { result := .panicked, state := (GetElasticsearchResourceInfo cp s w).2,
          calls := [.GetElasticsearch (getParams s)] } := by
  simp only [UpdateDeploymentSpec, hfetch, hbuild]

theorem run_of_update_error (cp : ControlPlane A T P S σ) (s : DeploymentScaler A)
    (memorySize : Int) (validateOnly : Bool) (w : σ) (es : ElasticsearchResourceInfo T P S)
    (r : DeploymentUpdateRequest T P S) (err : Error)
    (hfetch : (GetElasticsearchResourceInfo cp s w).1 = .ok es)
    (hbuild : buildRequest memorySize es = some r)
    (hupd : (cp.Update (updateParams s r validateOnly)
      (GetElasticsearchResourceInfo cp s w).2).1 = some err) :
    UpdateDeploymentSpec cp s memorySize validateOnly w
      = { result := .returned (some err),
          state := (cp.Update (updateParams s r validateOnly)
            (GetElasticsearchResourceInfo cp s w).2).2,
          calls := [.GetElasticsearch (getParams s),
                    .Update (updateParams s r validateOnly)] } := by
  simp only [UpdateDeploymentSpec, hfetch, hbuild, hupd]

theorem run_of_update_ok (cp : ControlPlane A T P S σ) (s : DeploymentScaler A)
    (memorySize : Int) (validateOnly : Bool) (w : σ) (es : ElasticsearchResourceInfo T P S)
    (r : DeploymentUpdateRequest T P S)
    (hfetch : (GetElasticsearchResourceInfo cp s w).1 = .ok es)
    (hbuild : buildRequest memorySize es = some r)
    (hupd : (cp.Update (updateParams s r validateOnly)
      (GetElasticsearchResourceInfo cp s w).2).1 = none) :
    UpdateDeploymentSpec cp s memorySize validateOnly w
      = { result := .returned (cp.Wait (trackParams s)
            (cp.Update (updateParams s r validateOnly)
              (GetElasticsearchResourceInfo cp s w).2).2).1,
          state := (cp.Wait (trackParams s)
            (cp.Update (updateParams s r validateOnly)
              (GetElasticsearchResourceInfo cp s w).2).2).2,
          calls := [.GetElasticsearch (getParams s),
                    .Update (updateParams s r validateOnly),
                    .Wait (trackParams s)] } := by
  simp only [UpdateDeploymentSpec, hfetch, hbuild, hupd]

/-- Every update call of a run carries the request built from the fetched resource info
and the validate-only flag of the caller. -/
theorem update_call_of_run (cp : ControlPlane A T P S σ) (s : DeploymentScaler A)
    (memorySize : Int) (validateOnly : Bool) (w : σ) (params : UpdateParams A T P S)
    (hcall : Call.Update params ∈ (UpdateDeploymentSpec cp s memorySize validateOnly w).calls) :
    ∃ es r, (GetElasticsearchResourceInfo cp s w).1 = .ok es ∧
      buildRequest memorySize es = some r ∧ params = updateParams s r validateOnly := by
  cases hfetch : (GetElasticsearchResourceInfo cp s w).1 with
  | error err =>
    rw [run_of_fetch_error cp s memorySize validateOnly w err hfetch] at hcall
    simp at hcall
  | ok es =>
    cases hbuild : buildRequest memorySize es with
    | none =>
      rw [run_of_abort cp s memorySize validateOnly w es hfetch hbuild] at hcall
      simp at hcall
    | some r =>
      refine ⟨es, r, rfl, hbuild, ?_⟩
      cases hupd : (cp.Update (updateParams s r validateOnly)
          (GetElasticsearchResourceInfo cp s w).2).1 with
      | some err =>
        rw [run_of_update_error cp s memorySize validateOnly w es r err hfetch hbuild hupd]
          at hcall
        simpa using hcall
      | none =>
        rw [run_of_update_ok cp s memorySize validateOnly w es r hfetch hbuild hupd] at hcall
        simpa using hcall

end Runs

/-! ## The claims -/

section Claims

variable {A T P S σ : Type}

/-- C1: for every `memorySize` and every fetched plan whose tier entries are all present,
the request is built and every tier of the submitted plan whose identifier is
`"hot_content"` has the size descriptor `{resource = "memory", value = memorySize}`; a
fetched `"hot_content"` tier is, at its position, the same tier with that size descriptor,
whatever its size was before. -/
theorem hot_content_size_is_memorySize (memorySize : Int)
    (es : ElasticsearchResourceInfo T P S) (plan : ElasticsearchClusterPlan T P)
    (hplan : currentPlan es = some plan)
    (hpresent : ∀ e ∈ plan.ClusterTopology, e ≠ none) :
    ∃ (r : DeploymentUpdateRequest T P S) (payload : ElasticsearchPayload T P S)
      (plan' : ElasticsearchClusterPlan T P), buildRequest memorySize es = some r ∧
      r.Resources = some { Elasticsearch := [some payload] } ∧ payload.Plan = some plan' ∧
      (∀ t, some t ∈ plan'.ClusterTopology → t.ID = "hot_content" →
        t.Size = some { Resource := some "memory", Value := some memorySize }) ∧
      (∀ (i : Nat) (t : ElasticsearchClusterTopologyElement T),
        plan.ClusterTopology[i]? = some (some t) → t.ID = "hot_content" →
        plan'.ClusterTopology[i]? = some (some { t with
          Size := some { Resource := some "memory", Value := some memorySize } })) := by
  obtain ⟨r, hr⟩ := buildRequest_of_present memorySize es plan hplan hpresent
  obtain ⟨info, plan0, plan', _, _, hplan0, hmut, hreq⟩ := buildRequest_eq memorySize es r hr
  have hsame : plan0 = plan := Option.some.inj (hplan0.symm.trans hplan)
  subst hsame
  have hplan' := mutatePlan_eq memorySize plan0 plan' hmut
  refine ⟨r, _, plan', hr, by rw [hreq], rfl, ?_, ?_⟩
  · intro t ht hid
    rw [hplan'] at ht
    simp only [List.mem_map] at ht
    obtain ⟨e, _, he⟩ := ht
    cases e with
    | none => simp at he
    | some t0 =>
      have ht0 : patchTier memorySize t0 = t := by simpa using he
      subst ht0
      by_cases h0 : t0.ID = "hot_content"
      · simp [patchTier, h0]
      · simp [patchTier, h0] at hid
  · intro i t hi hid
    rw [hplan']
    have := patched_getElem? memorySize plan0.ClusterTopology i t hi
    simpa [patchTier, hid] using this

/-- Witness for C1: tiers `[hot_content(2048), warm_content(4096)]` and `memorySize` 8192
give a submitted plan whose first tier is `hot_content` with size 8192 on `"memory"`. -/
theorem hot_content_size_is_memorySize_witness :
    (∀ e ∈ (examplePlan hotWarm).ClusterTopology, e ≠ none) ∧
    ∃ (r : DeploymentUpdateRequest String String String)
      (payload : ElasticsearchPayload String String String)
      (plan' : ElasticsearchClusterPlan String String),
      buildRequest 8192 (exampleInfo hotWarm) = some r ∧
      r.Resources = some { Elasticsearch := [some payload] } ∧ payload.Plan = some plan' ∧
      plan'.ClusterTopology[0]? = some (some
        { ID := "hot_content", Size := some { Resource := some "memory", Value := some 8192 },
          rest := "zone_count=2" }) := by
  refine ⟨by decide, ?_⟩
  obtain ⟨r, payload, plan', hr, hres, hp, _, hpos⟩ :=
    hot_content_size_is_memorySize 8192 (exampleInfo hotWarm) (examplePlan hotWarm) rfl
      (by decide)
  exact ⟨r, payload, plan', hr, hres, hp, hpos 0 (exampleTier "hot_content" 2048) rfl rfl⟩

/-- C2: for every `memorySize` and every fetched plan, the plan submitted is the fetched
plan with only the size of `"hot_content"` tiers changed: the non-topology fields are
unchanged, the tier list has the same length, at every position the tier keeps its
identifier and its other fields, a tier whose identifier is not `"hot_content"` is
identical, and without a `"hot_content"` tier the submitted plan equals the fetched plan. -/
theorem submitted_plan_frame (memorySize : Int)
    (es : ElasticsearchResourceInfo T P S) (plan : ElasticsearchClusterPlan T P)
    (r : DeploymentUpdateRequest T P S)
    (hplan : currentPlan es = some plan) (hbuild : buildRequest memorySize es = some r) :
    ∃ (payload : ElasticsearchPayload T P S) (plan' : ElasticsearchClusterPlan T P),
      r.Resources = some { Elasticsearch := [some payload] } ∧
      payload.Plan = some plan' ∧
      plan'.rest = plan.rest ∧
      plan'.ClusterTopology.length = plan.ClusterTopology.length ∧
      (∀ i, i < plan.ClusterTopology.length →
        ∃ t t', plan.ClusterTopology[i]? = some (some t) ∧
          plan'.ClusterTopology[i]? = some (some t') ∧
          t'.ID = t.ID ∧ t'.rest = t.rest ∧ (t.ID ≠ "hot_content" → t' = t)) ∧
      ((∀ t, some t ∈ plan.ClusterTopology → t.ID ≠ "hot_content") → plan' = plan) := by
  obtain ⟨info, plan0, plan', _, _, hplan0, hmut, hreq⟩ :=
    buildRequest_eq memorySize es r hbuild
  have hsame : plan0 = plan := Option.some.inj (hplan0.symm.trans hplan)
  subst hsame
  have hpresent := present_of_mutatePlan memorySize plan0 plan' hmut
  have hplan' := mutatePlan_eq memorySize plan0 plan' hmut
  refine ⟨_, plan', by rw [hreq], rfl, by rw [hplan'], by rw [hplan']; simp, ?_, ?_⟩
  · intro i hi
    have hget : plan0.ClusterTopology[i]? = some (plan0.ClusterTopology[i]) :=
      List.getElem?_eq_getElem hi
    cases he : plan0.ClusterTopology[i] with
    | none =>
      exact absurd he (hpresent _ (List.getElem_mem hi))
    | some t =>
      rw [he] at hget
      refine ⟨t, patchTier memorySize t, hget, ?_, ?_, ?_, ?_⟩
      · rw [hplan']
        exact patched_getElem? memorySize plan0.ClusterTopology i t hget
      · unfold patchTier
        split <;> rfl
      · unfold patchTier
        split <;> rfl
      · intro hne
        simp [patchTier, hne]
  · intro hno
    rw [hplan', map_patch_of_no_hot memorySize plan0.ClusterTopology hno]

/-- Witness for C2: with the tier list `[warm_content(4096)]` the submitted plan is the
fetched plan. -/
theorem submitted_plan_frame_witness :
    ∃ (r : DeploymentUpdateRequest String String String)
      (payload : ElasticsearchPayload String String String),
      buildRequest 8192 (exampleInfo warmOnly) = some r ∧
      r.Resources = some { Elasticsearch := [some payload] } ∧
      payload.Plan = some (examplePlan warmOnly) := by
  obtain ⟨r, hr⟩ : ∃ r, buildRequest 8192 (exampleInfo warmOnly) = some r := ⟨_, rfl⟩
  obtain ⟨payload, plan', hres, hp, _, _, _, hnoop⟩ :=
    submitted_plan_frame 8192 (exampleInfo warmOnly) (examplePlan warmOnly) r rfl hr
  have heq : plan' = examplePlan warmOnly :=
    hnoop (by simp [examplePlan, warmOnly, exampleTier])
  exact ⟨r, payload, hr, hres, by rw [hp, heq]⟩

/-- C3: when the client is built, the list is retrieved, every entry has a name and an ID
and some entry is named `deploymentName`, `NewDeploymentScaler` returns a handle whose
deployment ID is the ID of the first entry, in list order, named `deploymentName`. -/
theorem lookup_resolves_first_match (NewAPI : String → Except Error A)
    (deploymentapiList : A → Except Error DeploymentsListResponse)
    (ecApiKey deploymentName : String) (ecClient : A) (res : DeploymentsListResponse)
    (hapi : NewAPI ecApiKey = .ok ecClient) (hlist : deploymentapiList ecClient = .ok res)
    (hfields : ∀ e ∈ res.Deployments,
      ∃ d id name, e = some d ∧ d.ID = some id ∧ d.Name = some name)
    (hmatch : ∃ d, some d ∈ res.Deployments ∧ d.Name = some deploymentName) :
    ∃ d id, res.Deployments.find? (hasName deploymentName) = some (some d) ∧
      d.ID = some id ∧
      NewDeploymentScaler NewAPI deploymentapiList ecApiKey deploymentName
        = .returned (.ok { ecClient := ecClient, deploymentId := id,
                           deploymentName := deploymentName }) := by
  obtain ⟨d, id, hfind, hid, hres⟩ :=
    findDeployment_of_match ecClient deploymentName res.Deployments hfields hmatch
  exact ⟨d, id, hfind, hid, by simp only [NewDeploymentScaler, hapi, hlist, hres]⟩

/-- Witness for C3: names `["a","b","c","b"]` and target `"b"` resolve to the ID `"id-2"`
of the first entry named `"b"`. -/
theorem lookup_resolves_first_match_witness :
    ∃ d id,
      [listing "id-1" "a", listing "id-2" "b", listing "id-3" "c", listing "id-4" "b"].find?
        (hasName "b") = some (some d) ∧
      d.ID = some id ∧ id = "id-2" ∧
      NewDeploymentScaler exampleNewAPI
        (exampleList [listing "id-1" "a", listing "id-2" "b", listing "id-3" "c",
          listing "id-4" "b"]) "key" "b"
        = .returned (.ok { ecClient := (), deploymentId := id, deploymentName := "b" }) := by
  obtain ⟨d, id, hfind, hid, hres⟩ :=
    lookup_resolves_first_match exampleNewAPI
      (exampleList [listing "id-1" "a", listing "id-2" "b", listing "id-3" "c",
        listing "id-4" "b"]) "key" "b" ()
      { Deployments := [listing "id-1" "a", listing "id-2" "b", listing "id-3" "c",
          listing "id-4" "b"] } rfl rfl (by simp [listing])
      ⟨{ ID := some "id-2", Name := some "b" }, by simp [listing], rfl⟩
  refine ⟨d, id, hfind, hid, ?_, hres⟩
  have h2 : [listing "id-1" "a", listing "id-2" "b", listing "id-3" "c",
      listing "id-4" "b"].find? (hasName "b") = some (listing "id-2" "b") := by decide
  rw [h2] at hfind
  have hd : d = { ID := some "id-2", Name := some "b" } := by
    simpa [listing] using hfind.symm
  rw [hd] at hid
  exact (Option.some.inj hid).symm

/-- C4: when the client is built, the list is retrieved and every entry has a name,
`NewDeploymentScaler` fails with an error exactly when no entry has the name
`deploymentName`, character for character; the error is then the message
`"deployment not found: "` followed by `deploymentName`, and no handle is returned. -/
theorem not_found_iff_no_exact_match (NewAPI : String → Except Error A)
    (deploymentapiList : A → Except Error DeploymentsListResponse)
    (ecApiKey deploymentName : String) (ecClient : A) (res : DeploymentsListResponse)
    (hapi : NewAPI ecApiKey = .ok ecClient) (hlist : deploymentapiList ecClient = .ok res)
    (hnames : ∀ e ∈ res.Deployments, ∃ d name, e = some d ∧ d.Name = some name) :
    (NewDeploymentScaler NewAPI deploymentapiList ecApiKey deploymentName
        = .returned (.error ("deployment not found: " ++ deploymentName))
      ↔ ∀ d, some d ∈ res.Deployments → d.Name ≠ some deploymentName) ∧
    (∀ err, NewDeploymentScaler NewAPI deploymentapiList ecApiKey deploymentName
        = .returned (.error err) → err = "deployment not found: " ++ deploymentName) := by
  have hrun : NewDeploymentScaler NewAPI deploymentapiList ecApiKey deploymentName
      = findDeployment ecClient deploymentName res.Deployments := by
    simp only [NewDeploymentScaler, hapi, hlist]
  rw [hrun]
  have hback : ∀ err, findDeployment ecClient deploymentName res.Deployments
      = .returned (.error err) → err = "deployment not found: " ++ deploymentName := by
    intro err herr
    have hno := findDeployment_error_no_match ecClient deploymentName res.Deployments err herr
    have := findDeployment_of_no_match ecClient deploymentName res.Deployments hnames hno
    rw [this] at herr
    injection herr with herr
    injection herr with herr
    exact herr.symm
  refine ⟨⟨?_, ?_⟩, hback⟩
  · intro h
    exact findDeployment_error_no_match ecClient deploymentName res.Deployments _ h
  · intro hno
    exact findDeployment_of_no_match ecClient deploymentName res.Deployments hnames hno

/-- Witness for C4: among the names `["a","B"," b","c"]` none is exactly `"b"`, and the
constructor fails with the message `"deployment not found: b"`. -/
theorem not_found_iff_no_exact_match_witness :
    NewDeploymentScaler exampleNewAPI
      (exampleList [listing "id-1" "a", listing "id-2" "B", listing "id-3" " b",
        listing "id-4" "c"]) "key" "b"
      = .returned (.error "deployment not found: b") :=
  (not_found_iff_no_exact_match exampleNewAPI
    (exampleList [listing "id-1" "a", listing "id-2" "B", listing "id-3" " b",
      listing "id-4" "c"]) "key" "b" ()
    { Deployments := [listing "id-1" "a", listing "id-2" "B", listing "id-3" " b",
        listing "id-4" "c"] } rfl rfl (by simp [listing])).1.2 (by simp [listing])

end Claims

section Orchestration

variable {A T P S σ : Type}

/-- C5: for every `memorySize`, every `validateOnly` and every fetched resource info, an
update request submitted by `UpdateDeploymentSpec` carries `PruneOrphans` set to false and
exactly one Elasticsearch payload, whose reference ID, region and settings are those of
the fetched resource info. -/
theorem update_request_keeps_orphans (cp : ControlPlane A T P S σ) (s : DeploymentScaler A)
    (memorySize : Int) (validateOnly : Bool) (w : σ) (es : ElasticsearchResourceInfo T P S)
    (params : UpdateParams A T P S)
    (hfetch : (GetElasticsearchResourceInfo cp s w).1 = .ok es)
    (hcall : Call.Update params ∈ (UpdateDeploymentSpec cp s memorySize validateOnly w).calls) :
    buildRequest memorySize es = some params.Request ∧
    params.Request.PruneOrphans = some false ∧
    ∃ (info : ElasticsearchClusterInfo T P S) (payload : ElasticsearchPayload T P S),
      es.Info = some info ∧
      params.Request.Resources = some { Elasticsearch := [some payload] } ∧
      payload.RefID = es.RefID ∧ payload.Region = es.Region ∧
      payload.Settings = info.Settings := by
  obtain ⟨es0, r, hfetch0, hbuild, hparams⟩ :=
    update_call_of_run cp s memorySize validateOnly w params hcall
  have hes : es0 = es := by
    rw [hfetch0] at hfetch
    injection hfetch
  subst hes
  obtain ⟨info, plan, plan', hinfo, _, _, _, hreq⟩ := buildRequest_eq memorySize es0 r hbuild
  subst hparams
  refine ⟨hbuild, by rw [hreq]; rfl, info, _, hinfo, by rw [hreq]; rfl, rfl, rfl, rfl⟩

/-- Witness for C5: the run on `[hot_content(2048), warm_content(4096)]` submits a request
with `PruneOrphans` false and the fetched reference ID. -/
theorem update_request_keeps_orphans_witness :
    (updateParams exampleScaler
        { PruneOrphans := some false
          Resources := some { Elasticsearch := [some
            { Plan := some (examplePlan
                [some (exampleTier "hot_content" 8192), some (exampleTier "warm_content" 4096)])
              RefID := some "main-elasticsearch"
              Region := some "region-1"
              Settings := some "snapshot=enabled" }] } }
        false).Request.PruneOrphans = some false :=
  (update_request_keeps_orphans
    (testDouble (.ok (exampleInfo hotWarm)) (fun _ => none) none) exampleScaler 8192 false
    emptyDouble (exampleInfo hotWarm) _ rfl (by decide)).2.1

/-- C6, as amended: a validate-only call against a control plane that records an applied
change only for an update submitted with validate-only false leaves the applied changes
as they were, every update it submits carries validate-only true, and it returns a nil
error when the remote validation succeeds and the tracking call reports success. -/
theorem validate_only_applies_nothing {α : Type} (cp : ControlPlane A T P S σ)
    (applied : σ → α)
    (hGet : ∀ p w, applied (cp.GetElasticsearch p w).2 = applied w)
    (hUpd : ∀ p w, p.ValidateOnly = true → applied (cp.Update p w).2 = applied w)
    (hWait : ∀ p w, applied (cp.Wait p w).2 = applied w)
    (s : DeploymentScaler A) (memorySize : Int) (w : σ) :
    applied (UpdateDeploymentSpec cp s memorySize true w).state = applied w ∧
    (∀ params, Call.Update params ∈ (UpdateDeploymentSpec cp s memorySize true w).calls →
      params.ValidateOnly = true) ∧
    (∀ es r, (GetElasticsearchResourceInfo cp s w).1 = .ok es →
      buildRequest memorySize es = some r →
      (cp.Update (updateParams s r true) (GetElasticsearchResourceInfo cp s w).2).1 = none →
      (cp.Wait (trackParams s)
        (cp.Update (updateParams s r true) (GetElasticsearchResourceInfo cp s w).2).2).1 = none →
      (UpdateDeploymentSpec cp s memorySize true w).result = .returned none) := by
  have hfetched : applied (GetElasticsearchResourceInfo cp s w).2 = applied w := hGet _ w
  refine ⟨?_, ?_, ?_⟩
  · cases hfetch : (GetElasticsearchResourceInfo cp s w).1 with
    | error err =>
      rw [run_of_fetch_error cp s memorySize true w err hfetch]
      exact hfetched
    | ok es =>
      cases hbuild : buildRequest memorySize es with
      | none =>
        rw [run_of_abort cp s memorySize true w es hfetch hbuild]
        exact hfetched
      | some r =>
        have hupdated : applied (cp.Update (updateParams s r true)
            (GetElasticsearchResourceInfo cp s w).2).2 = applied w :=
          (hUpd _ _ rfl).trans hfetched
        cases hupd : (cp.Update (updateParams s r true)
            (GetElasticsearchResourceInfo cp s w).2).1 with
        | some err =>
          rw [run_of_update_error cp s memorySize true w es r err hfetch hbuild hupd]
          exact hupdated
        | none =>
          rw [run_of_update_ok cp s memorySize true w es r hfetch hbuild hupd]
          exact (hWait _ _).trans hupdated
  · intro params hcall
    obtain ⟨_, r, _, _, hparams⟩ := update_call_of_run cp s memorySize true w params hcall
    rw [hparams]
    rfl
  · intro es r hfetch hbuild hupd hwait
    rw [run_of_update_ok cp s memorySize true w es r hfetch hbuild hupd]
    exact congrArg Outcome.returned hwait

/-- Witness for C6, as amended: against the test double whose validation and tracking
succeed, the validate-only call applies nothing and returns a nil error. -/
theorem validate_only_applies_nothing_witness :
    (UpdateDeploymentSpec
        (testDouble (.ok (exampleInfo hotWarm)) (fun _ => none) none)
        exampleScaler 8192 true emptyDouble).state.applied = [] ∧
    (UpdateDeploymentSpec
        (testDouble (.ok (exampleInfo hotWarm)) (fun _ => none) none)
        exampleScaler 8192 true emptyDouble).result = .returned none := by
  have h := validate_only_applies_nothing
    (testDouble (.ok (exampleInfo hotWarm)) (fun _ => none) none)
    (fun w : DoubleState String String String => w.applied)
    (fun _ _ => rfl)
    (fun p w hp => by simp [testDouble, hp])
    (fun _ _ => rfl) exampleScaler 8192 emptyDouble
  exact ⟨h.1, h.2.2 (exampleInfo hotWarm) _ rfl rfl rfl rfl⟩

/-- Counterexample to C6 as stated: against the test double whose validation succeeds and
whose tracking call fails, the validate-only call applies nothing, its update is accepted,
and yet it returns the tracking error instead of a nil error. -/
theorem validate_only_success_counterexample :
    ((testDouble (.ok (exampleInfo hotWarm)) (fun _ => none)
        (some "tracking: retries exhausted") : ControlPlane Unit String String String _).Update
      (updateParams exampleScaler
        { PruneOrphans := some false
          Resources := some { Elasticsearch := [some
            { Plan := some (examplePlan
                [some (exampleTier "hot_content" 8192), some (exampleTier "warm_content" 4096)])
              RefID := some "main-elasticsearch"
              Region := some "region-1"
              Settings := some "snapshot=enabled" }] } }
        true) emptyDouble).1 = none ∧
    (UpdateDeploymentSpec
        (testDouble (.ok (exampleInfo hotWarm)) (fun _ => none)
          (some "tracking: retries exhausted"))
        exampleScaler 8192 true emptyDouble).calls
      = [.GetElasticsearch (getParams exampleScaler),
         .Update (updateParams exampleScaler
          { PruneOrphans := some false
            Resources := some { Elasticsearch := [some
              { Plan := some (examplePlan
                  [some (exampleTier "hot_content" 8192),
                   some (exampleTier "warm_content" 4096)])
                RefID := some "main-elasticsearch"
                Region := some "region-1"
                Settings := some "snapshot=enabled" }] } }
          true),
         .Wait (trackParams exampleScaler)] ∧
    (UpdateDeploymentSpec
        (testDouble (.ok (exampleInfo hotWarm)) (fun _ => none)
          (some "tracking: retries exhausted"))
        exampleScaler 8192 true emptyDouble).state.applied = [] ∧
    (UpdateDeploymentSpec
        (testDouble (.ok (exampleInfo hotWarm)) (fun _ => none)
          (some "tracking: retries exhausted"))
        exampleScaler 8192 true emptyDouble).result
      = .returned (some "tracking: retries exhausted") ∧
    (UpdateDeploymentSpec
        (testDouble (.ok (exampleInfo hotWarm)) (fun _ => none)
          (some "tracking: retries exhausted"))
        exampleScaler 8192 true emptyDouble).result ≠ .returned none := by
  refine ⟨rfl, by decide, by decide, by decide, by decide⟩

/-- C7: when the fetch and the update submission succeed and the tracking call reports
the error `err`, `UpdateDeploymentSpec` returns `err`, and the run consists of one fetch,
one update submission and one tracking call, in this order. -/
theorem tracking_failure_is_returned (cp : ControlPlane A T P S σ) (s : DeploymentScaler A)
    (memorySize : Int) (validateOnly : Bool) (w : σ) (es : ElasticsearchResourceInfo T P S)
    (r : DeploymentUpdateRequest T P S) (err : Error)
    (hfetch : (GetElasticsearchResourceInfo cp s w).1 = .ok es)
    (hbuild : buildRequest memorySize es = some r)
    (hupd : (cp.Update (updateParams s r validateOnly)
      (GetElasticsearchResourceInfo cp s w).2).1 = none)
    (htrack : (cp.Wait (trackParams s) (cp.Update (updateParams s r validateOnly)
      (GetElasticsearchResourceInfo cp s w).2).2).1 = some err) :
    (UpdateDeploymentSpec cp s memorySize validateOnly w).result = .returned (some err) ∧
    (UpdateDeploymentSpec cp s memorySize validateOnly w).calls
      = [.GetElasticsearch (getParams s), .Update (updateParams s r validateOnly),
         .Wait (trackParams s)] := by
  rw [run_of_update_ok cp s memorySize validateOnly w es r hfetch hbuild hupd]
  exact ⟨congrArg Outcome.returned htrack, rfl⟩

/-- Witness for C7: against the test double whose tracking call fails, the call returns
the tracking error. -/
theorem tracking_failure_is_returned_witness :
    (UpdateDeploymentSpec
        (testDouble (.ok (exampleInfo hotWarm)) (fun _ => none)
          (some "tracking: retries exhausted"))
        exampleScaler 1024 false emptyDouble).result
      = .returned (some "tracking: retries exhausted") :=
  (tracking_failure_is_returned
    (testDouble (.ok (exampleInfo hotWarm)) (fun _ => none)
      (some "tracking: retries exhausted"))
    exampleScaler 1024 false emptyDouble (exampleInfo hotWarm) _
    "tracking: retries exhausted" rfl rfl rfl rfl).1

/-- C8: when the fetch fails, `UpdateDeploymentSpec` returns the fetch error and the run
consists of the fetch alone, the control plane being left as the fetch left it; when the
update submission is rejected, it returns the remote error and the run consists of the
fetch and the update submission, without a tracking call. -/
theorem failures_return_at_once (cp : ControlPlane A T P S σ) (s : DeploymentScaler A)
    (memorySize : Int) (validateOnly : Bool) (w : σ) :
    (∀ err, (GetElasticsearchResourceInfo cp s w).1 = .error err →
      (UpdateDeploymentSpec cp s memorySize validateOnly w).result = .returned (some err) ∧
      (UpdateDeploymentSpec cp s memorySize validateOnly w).calls
        = [.GetElasticsearch (getParams s)] ∧
      (UpdateDeploymentSpec cp s memorySize validateOnly w).state
        = (GetElasticsearchResourceInfo cp s w).2) ∧
    (∀ es r err, (GetElasticsearchResourceInfo cp s w).1 = .ok es →
      buildRequest memorySize es = some r →
      (cp.Update (updateParams s r validateOnly)
        (GetElasticsearchResourceInfo cp s w).2).1 = some err →
      (UpdateDeploymentSpec cp s memorySize validateOnly w).result = .returned (some err) ∧
      (UpdateDeploymentSpec cp s memorySize validateOnly w).calls
        = [.GetElasticsearch (getParams s), .Update (updateParams s r validateOnly)]) := by
  refine ⟨?_, ?_⟩
  · intro err hfetch
    rw [run_of_fetch_error cp s memorySize validateOnly w err hfetch]
    exact ⟨rfl, rfl, rfl⟩
  · intro es r err hfetch hbuild hupd
    rw [run_of_update_error cp s memorySize validateOnly w es r err hfetch hbuild hupd]
    exact ⟨rfl, rfl⟩

/-- Witness for C8: a failing fetch and a rejected update on the test double. -/
theorem failures_return_at_once_witness :
    (UpdateDeploymentSpec
        (testDouble (.error "resource not found") (fun _ => none) none)
        exampleScaler 1024 false emptyDouble).result = .returned (some "resource not found") ∧
    (UpdateDeploymentSpec
        (testDouble (.ok (exampleInfo hotWarm)) (fun _ => some "quota exceeded") none)
        exampleScaler 1024 false emptyDouble).result = .returned (some "quota exceeded") :=
  ⟨((failures_return_at_once
      (testDouble (.error "resource not found") (fun _ => none) none)
      exampleScaler 1024 false emptyDouble).1 "resource not found" rfl).1,
   ((failures_return_at_once
      (testDouble (.ok (exampleInfo hotWarm)) (fun _ => some "quota exceeded") none)
      exampleScaler 1024 false emptyDouble).2 (exampleInfo hotWarm) _ "quota exceeded"
      rfl rfl rfl).1⟩

/-- C9, as amended: when every entry of the tier list is present, the mutation step
replaces the size descriptor of the entries whose identifier is `"hot_content"` and of no
other entry, and the number of replacements is the number of such entries. -/
theorem replacements_are_hot_content_tiers (memorySize : Int)
    (tiers : List (Option (ElasticsearchClusterTopologyElement T)))
    (hpresent : ∀ e ∈ tiers, e ≠ none) :
    ∃ out, mutateTopology memorySize tiers = some (out, hotCount tiers) ∧
      out.length = tiers.length ∧
      ∀ (i : Nat) (t : ElasticsearchClusterTopologyElement T), tiers[i]? = some (some t) →
        out[i]? = some (some
          (if t.ID = "hot_content" then
            { t with Size := some { Resource := some "memory", Value := some memorySize } }
           else t)) := by
  refine ⟨_, mutateTopology_of_present memorySize tiers hpresent, by simp, ?_⟩
  intro i t hi
  exact patched_getElem? memorySize tiers i t hi

/-- Witness for C9, as amended: in `[hot_content(2048), warm_content(4096)]` one size
descriptor is replaced. -/
theorem replacements_are_hot_content_tiers_witness :
    ∃ out, mutateTopology 8192 hotWarm = some (out, 1) := by
  obtain ⟨out, h, _⟩ := replacements_are_hot_content_tiers 8192 hotWarm (by decide)
  exact ⟨out, h⟩

/-- Counterexample to C9 as stated: on `[warm_content(4096)]` the mutation step replaces
no size descriptor and leaves the list as it was, and on a list with two `hot_content`
entries it replaces two. -/
theorem exactly_one_tier_counterexample :
    mutateTopology 8192 warmOnly = some (warmOnly, 0) ∧
    mutateTopology 8192 hotTwice
      = some ([some (exampleTier "hot_content" 8192), some (exampleTier "hot_content" 8192)],
              2) := by
  decide

/-- C10, as amended: when the fetch succeeds and the cluster info, the plan info, the
current plan info, the plan and every entry of the tier list are present,
`UpdateDeploymentSpec` does not abort: the request is built and the call returns the
error of the update submission when it is rejected, and the result of the tracking call,
a nil error or an error value, otherwise. -/
theorem returns_normally_when_present (cp : ControlPlane A T P S σ) (s : DeploymentScaler A)
    (memorySize : Int) (validateOnly : Bool) (w : σ) (es : ElasticsearchResourceInfo T P S)
    (plan : ElasticsearchClusterPlan T P)
    (hfetch : (GetElasticsearchResourceInfo cp s w).1 = .ok es)
    (hplan : currentPlan es = some plan)
    (hpresent : ∀ e ∈ plan.ClusterTopology, e ≠ none) :
    ∃ r, buildRequest memorySize es = some r ∧
      (UpdateDeploymentSpec cp s memorySize validateOnly w).result
        = .returned
            (match (cp.Update (updateParams s r validateOnly)
                (GetElasticsearchResourceInfo cp s w).2).1 with
             | some err => some err
             | none =>
               (cp.Wait (trackParams s) (cp.Update (updateParams s r validateOnly)
                 (GetElasticsearchResourceInfo cp s w).2).2).1) := by
  obtain ⟨r, hbuild⟩ := buildRequest_of_present memorySize es plan hplan hpresent
  refine ⟨r, hbuild, ?_⟩
  cases hupd : (cp.Update (updateParams s r validateOnly)
      (GetElasticsearchResourceInfo cp s w).2).1 with
  | some err =>
    rw [run_of_update_error cp s memorySize validateOnly w es r err hfetch hbuild hupd]
  | none =>
    rw [run_of_update_ok cp s memorySize validateOnly w es r hfetch hbuild hupd]

/-- Witness for C10, as amended: the run on a fully present resource info, against the
test double that rejects the update, returns the rejection as an error. -/
theorem returns_normally_when_present_witness :
    (∀ e ∈ (examplePlan hotWarm).ClusterTopology, e ≠ none) ∧
    (UpdateDeploymentSpec
        (testDouble (.ok (exampleInfo hotWarm)) (fun _ => some "quota exceeded") none)
        exampleScaler 1024 false emptyDouble).result = .returned (some "quota exceeded") := by
  refine ⟨by decide, ?_⟩
  obtain ⟨r, _, hres⟩ := returns_normally_when_present
    (testDouble (.ok (exampleInfo hotWarm)) (fun _ => some "quota exceeded") none)
    exampleScaler 1024 false emptyDouble (exampleInfo hotWarm) (examplePlan hotWarm)
    rfl rfl (by decide)
  rw [hres]
  rfl

/-- Counterexample to C10 as stated: when the fetched resource info has no cluster info,
the call aborts on the nil dereference after the fetch, and returns neither nil nor an
error. -/
theorem nil_cluster_info_counterexample :
    (GetElasticsearchResourceInfo
        (testDouble (.ok infoAbsent) (fun _ => none) none) exampleScaler emptyDouble).1
      = .ok infoAbsent ∧
    (UpdateDeploymentSpec
        (testDouble (.ok infoAbsent) (fun _ => none) none)
        exampleScaler 1024 false emptyDouble).result = .panicked ∧
    (UpdateDeploymentSpec
        (testDouble (.ok infoAbsent) (fun _ => none) none)
        exampleScaler 1024 false emptyDouble).calls
      = [.GetElasticsearch (getParams exampleScaler)] := by
  refine ⟨rfl, by decide, by decide⟩

end Orchestration

end PocValidateOnly
